import Mathlib

/-!
# Verification of the gamepad-bridge report-translation core

Shallow embedding of the Rust sources `src/hidapi_fn.rs` and
`src/usb_gamepad.rs` of the gamepad-bridge repository, together with
theorems settling the specification claims about them.

Conventions of the embedding:
* `u8` bytes are modelled as `Nat`; bitwise `&` is `&&&`, the exact-value
  `match` arms of the Rust code become `==` tests.
* The raw HID input report `[u8; HID_ARRAY_SIZE]` is modelled as a function
  `Nat → Nat` from byte index to byte value (the decoder only reads a fixed
  finite set of indices, so the array size constant is irrelevant).
* Fallible operations return `Except`; a call of the `print_error_and_exit!`
  macro (whose defining module is not part of the sources at hand) is
  modelled as an explicit `exited` outcome carrying the exit code.
* `f32` arithmetic of the interval writer is modelled over `ℚ`.
-/

/-! ## Data model (`hidapi_gamepad` / `universal_gamepad`)

The `UniversalGamepad` value type as used by `_process_input_ps5`:
sticks, triggers, bumpers, main buttons, dpad and special buttons.
-/

structure Stick where
  x : Nat
  y : Nat
  pressed : Bool
deriving DecidableEq, Repr

structure Sticks where
  left : Stick
  right : Stick
deriving DecidableEq, Repr

structure Triggers where
  left : Nat
  right : Nat
deriving DecidableEq, Repr

structure Bumpers where
  left : Bool
  right : Bool
deriving DecidableEq, Repr

structure MainButtons where
  upper : Bool
  right : Bool
  lower : Bool
  left : Bool
deriving DecidableEq, Repr

structure DPad where
  up : Bool
  right : Bool
  down : Bool
  left : Bool
deriving DecidableEq, Repr

structure SpecialButtons where
  left : Bool
  right : Bool
  logo : Bool
  touchpad : Bool
deriving DecidableEq, Repr

structure UniversalGamepad where
  sticks : Sticks
  triggers : Triggers
  bumpers : Bumpers
  buttons : MainButtons
  dpad : DPad
  specials : SpecialButtons
deriving DecidableEq, Repr

/-- The neutral gamepad value: all booleans false, sticks centered at 128,
triggers at 0 (spec §4.B). Used only to supply concrete initial output
states to the decoder. -/
def UniversalGamepad.neutral : UniversalGamepad where
  sticks := { left := { x := 128, y := 128, pressed := false },
              right := { x := 128, y := 128, pressed := false } }
  triggers := { left := 0, right := 0 }
  bumpers := { left := false, right := false }
  buttons := { upper := false, right := false, lower := false, left := false }
  dpad := { up := false, right := false, down := false, left := false }
  specials := { left := false, right := false, logo := false, touchpad := false }

/-! ## PS5 input decoder (`_process_input_ps5`, src/hidapi_fn.rs lines 150-214)

Direct transcription.  The Rust function mutates `output` field by field;
every field of `UniversalGamepad` is assigned, modelled with a structure
update.  `match input[10] { 64 => true, _ => false }` becomes
`input 10 == 64`, and `0b00001111 & input[9]` becomes `input 9 &&& 15`. -/

def _process_input_ps5 (input : Nat → Nat) (output : UniversalGamepad) :
    UniversalGamepad :=
  let dpad := 15 &&& input 9
  { output with
    sticks :=
      { left := { x := input 2, y := input 3, pressed := input 10 == 64 },
        right := { x := input 4, y := input 5, pressed := input 10 == 128 } },
    triggers := { left := input 6, right := input 7 },
    bumpers := { left := input 10 == 1, right := input 10 == 2 },
    buttons :=
      { upper := (input 9 &&& 128) != 0,
        right := (input 9 &&& 64) != 0,
        lower := (input 9 &&& 32) != 0,
        left := (input 9 &&& 16) != 0 },
    dpad :=
      { right := dpad == 1 || dpad == 2 || dpad == 3,
        down := dpad == 3 || dpad == 4 || dpad == 5,
        left := dpad == 5 || dpad == 6 || dpad == 7,
        up := dpad == 0 || dpad == 1 || dpad == 7 },
    specials :=
      { touchpad := input 11 == 2,
        right := input 10 == 32,
        left := input 10 == 16,
        logo := input 11 == 1 } }

/-! ## Claims about the PS5 decoder -/

/-- A raw input report whose byte 10 is `0x41 = 0x01 ||| 0x40`
(left bumper bit plus left-stick-click bit) and whose dpad nibble is
released (`8`); all other bytes are zero. -/
def inputByte10x41 : Nat → Nat :=
  fun k => if k = 10 then 65 else if k = 9 then 8 else 0

/-- C1: the claim demands a bitfield decode of byte 10, so byte 10 = 0x41
must yield `bumpers.left = true` and `sticks.left.pressed = true`
simultaneously.  The code instead tests byte 10 for exact values
(`match input[10] { 1 => .. }`, `{ 64 => .. }`), so at byte 10 = 0x41 = 65
it decodes BOTH as `false`: the code contradicts the specified bitfield
semantics (the spec itself flags this as a known bug, §9). -/
theorem claim1_byte10_bitfield_code_bug :
    ((_process_input_ps5 inputByte10x41 .neutral).bumpers.left = false) ∧
    ((_process_input_ps5 inputByte10x41 .neutral).sticks.left.pressed = false) :=
  ⟨rfl, rfl⟩

/-- C5: the decoder's dpad output is determined by the low nibble `n` of
byte 9 exactly by the rule `up = n ∈ {7,0,1}`, `right = n ∈ {1,2,3}`,
`down = n ∈ {3,4,5}`, `left = n ∈ {5,6,7}`; all four are false at `n = 8`;
consequently `up`/`down` are never both true, nor `left`/`right`. -/
theorem claim5_dpad_rule (input : Nat → Nat) (output : UniversalGamepad) :
    let n := 15 &&& input 9
    let d := (_process_input_ps5 input output).dpad
    (d.up = (n == 7 || n == 0 || n == 1)) ∧
    (d.right = (n == 1 || n == 2 || n == 3)) ∧
    (d.down = (n == 3 || n == 4 || n == 5)) ∧
    (d.left = (n == 5 || n == 6 || n == 7)) ∧
    (n = 8 → d = ⟨false, false, false, false⟩) ∧
    ¬(d.up = true ∧ d.down = true) ∧
    ¬(d.left = true ∧ d.right = true) := by
  have hle : 15 &&& input 9 ≤ 15 := Nat.and_le_left
  simp only [_process_input_ps5]
  generalize (15 &&& input 9) = n at *
  interval_cases n <;> simp

/-- Witness for C5 at a concrete released-dpad report (`byte 9 = 8`):
the `n = 8` hypothesis of the rule is discharged and all four dpad
booleans are false. -/
theorem claim5_dpad_rule_witness :
    (_process_input_ps5 (fun k => if k = 9 then 8 else 0) .neutral).dpad =
      ⟨false, false, false, false⟩ :=
  (claim5_dpad_rule (fun k => if k = 9 then 8 else 0) .neutral).2.2.2.2.1 (by decide)

/-- C8: two raw reports agreeing on bytes 2 through 11 decode (from the same
initial output state) to identical `UniversalGamepad` values — the decoder
does not depend on bytes 0, 1 or any byte from index 12 onward. -/
theorem claim8_decode_depends_only_on_bytes_2_to_11
    (i1 i2 : Nat → Nat) (out : UniversalGamepad)
    (h : ∀ k, 2 ≤ k → k ≤ 11 → i1 k = i2 k) :
    _process_input_ps5 i1 out = _process_input_ps5 i2 out := by
  have h2 := h 2 (by norm_num) (by norm_num)
  have h3 := h 3 (by norm_num) (by norm_num)
  have h4 := h 4 (by norm_num) (by norm_num)
  have h5 := h 5 (by norm_num) (by norm_num)
  have h6 := h 6 (by norm_num) (by norm_num)
  have h7 := h 7 (by norm_num) (by norm_num)
  have h9 := h 9 (by norm_num) (by norm_num)
  have h10 := h 10 (by norm_num) (by norm_num)
  have h11 := h 11 (by norm_num) (by norm_num)
  simp only [_process_input_ps5, h2, h3, h4, h5, h6, h7, h9, h10, h11]

/-- Witness for C8: two concrete reports that differ only at bytes 0, 1 and
12-onward decode identically. -/
theorem claim8_decode_depends_only_on_bytes_2_to_11_witness :
    _process_input_ps5 (fun _ => 0) .neutral =
      _process_input_ps5 (fun k => if 2 ≤ k ∧ k ≤ 11 then 0 else 5) .neutral :=
  claim8_decode_depends_only_on_bytes_2_to_11 _ _ _
    (fun k h1 h2 => by simp [h1, h2])

/-- C9: for a dpad nibble in `9..=15` (left undefined by the spec's rule)
the decoder sets all four dpad booleans to false — the same dpad result as
the released value `n = 8` (here exhibited by re-decoding the report with
byte 9 replaced by 8). -/
theorem claim9_dpad_nibble_out_of_range (input : Nat → Nat)
    (output : UniversalGamepad) (h : 9 ≤ 15 &&& input 9) :
    (_process_input_ps5 input output).dpad = ⟨false, false, false, false⟩ ∧
    (_process_input_ps5 input output).dpad =
      (_process_input_ps5 (fun k => if k = 9 then 8 else input k) output).dpad := by
  have hle : 15 &&& input 9 ≤ 15 := Nat.and_le_left
  constructor
  · simp only [_process_input_ps5]
    generalize (15 &&& input 9) = n at *
    interval_cases n <;> simp
  · have h8 : (_process_input_ps5 (fun k => if k = 9 then 8 else input k)
        output).dpad = ⟨false, false, false, false⟩ := by
      simp [_process_input_ps5]
      decide
    rw [h8]
    simp only [_process_input_ps5]
    generalize (15 &&& input 9) = n at *
    interval_cases n <;> simp

/-- Witness for C9 at a concrete report with dpad nibble 9. -/
theorem claim9_dpad_nibble_out_of_range_witness :
    9 ≤ 15 &&& (fun k => if k = 9 then 9 else 0) 9 ∧
    (_process_input_ps5 (fun k => if k = 9 then 9 else 0) .neutral).dpad =
      ⟨false, false, false, false⟩ :=
  ⟨by decide,
   (claim9_dpad_nibble_out_of_range (fun k => if k = 9 then 9 else 0)
     .neutral (by decide)).1⟩

/-! ## HID device locator (`get_hid_gamepad`, src/hidapi_fn.rs lines 6-94)

The hidapi registry is modelled as the list of `DeviceInfo` records it
enumerates.  Whether `api.open(vid, pid)` succeeds for a device is part of
the modelled environment (`open_ok`).  Besides the `Result`, the embedding
returns the final `error_info` vector (the accumulated unsupported devices
that get logged) and the list of devices on which an open was attempted,
so that "logged every unsupported device" and "did not attempt further
opens" are expressible. -/

inductive HidApiGamepadError
  | NoBTDevice
  | NoSupportedDevice
  | OpenFailed
deriving DecidableEq, Repr

inductive GamepadModel
  | PS5
  | PS4
deriving DecidableEq, Repr

inductive BusType
  | Usb
  | Bluetooth
  | I2c
  | Spi
deriving DecidableEq, Repr

structure DeviceInfo where
  bus_type : BusType
  vendor_id : Nat
  product_id : Nat
  product_string : Option String
  open_ok : Bool
deriving DecidableEq, Repr

/-- `_get_bluetooth_hid_devices`: the loop pushing every device whose bus
type is Bluetooth is a filter; empty result is the error case. -/
def _get_bluetooth_hid_devices (devices : List DeviceInfo) :
    Except Unit (List DeviceInfo) :=
  let bluetooth_devices :=
    devices.filter (fun d => d.bus_type == BusType.Bluetooth)
  if bluetooth_devices.isEmpty then .error () else .ok bluetooth_devices

/-- One entry of the `error_info` vector: `(vid, pid, product_string)`. -/
def errorEntry (d : DeviceInfo) : Nat × Nat × Option String :=
  (d.vendor_id, d.product_id, d.product_string)

/-- The `for device_info in bluetooth_devices` loop of `get_hid_gamepad`.
The Rust `match (vid, pid) { (0x054c, 0x0ce6) => …, _ => … }` is the
equality test written as an `if`.  Extra outputs: final `error_info`, and
the devices on which `api.open` was attempted. -/
def gamepadSearchLoop :
    List DeviceInfo → List (Nat × Nat × Option String) →
    Except HidApiGamepadError (DeviceInfo × GamepadModel) ×
      List (Nat × Nat × Option String) × List DeviceInfo
  | [], error_info => (.error .NoSupportedDevice, error_info, [])
  | d :: rest, error_info =>
    if d.vendor_id == 0x054c && d.product_id == 0x0ce6 then
      if d.open_ok then (.ok (d, .PS5), error_info, [d])
      else (.error .OpenFailed, error_info, [d])
    else
      gamepadSearchLoop rest (error_info ++ [errorEntry d])

/-- `get_hid_gamepad` (src/hidapi_fn.rs lines 24-61). -/
def get_hid_gamepad (devices : List DeviceInfo) :
    Except HidApiGamepadError (DeviceInfo × GamepadModel) ×
      List (Nat × Nat × Option String) × List DeviceInfo :=
  match _get_bluetooth_hid_devices devices with
  | .error _ => (.error .NoBTDevice, [], [])
  | .ok bluetooth_devices => gamepadSearchLoop bluetooth_devices []

/-- The search loop never produces `NoBTDevice`. -/
theorem gamepadSearchLoop_ne_noBT (l : List DeviceInfo)
    (acc : List (Nat × Nat × Option String)) :
    (gamepadSearchLoop l acc).1 ≠ .error .NoBTDevice := by
  induction l generalizing acc with
  | nil => simp [gamepadSearchLoop]
  | cons d rest ih =>
    simp only [gamepadSearchLoop]
    split
    · split <;> simp
    · exact ih _

/-- If no device in the list matches the supported `(0x054c, 0x0ce6)` pair,
the loop visits all of them, accumulates every one into `error_info`, and
ends in `NoSupportedDevice`. -/
theorem gamepadSearchLoop_unmatched (l : List DeviceInfo)
    (acc : List (Nat × Nat × Option String))
    (h : ∀ d ∈ l, (d.vendor_id == 0x054c && d.product_id == 0x0ce6) = false) :
    gamepadSearchLoop l acc =
      (.error .NoSupportedDevice, acc ++ l.map errorEntry, []) := by
  induction l generalizing acc with
  | nil => simp [gamepadSearchLoop]
  | cons d rest ih =>
    have hd := h d (by simp)
    simp only [gamepadSearchLoop, hd, Bool.false_eq_true, if_false]
    rw [ih _ (fun e he => h e (by simp [he]))]
    simp [errorEntry]

/-- If the first matching device of the list refuses to open, the loop
stops at it: `OpenFailed`, an open attempted only on that device, and the
devices after it never examined. -/
theorem gamepadSearchLoop_first_match_open_failure
    (pre post : List DeviceInfo) (d : DeviceInfo)
    (acc : List (Nat × Nat × Option String))
    (hpre : ∀ e ∈ pre, (e.vendor_id == 0x054c && e.product_id == 0x0ce6) = false)
    (hd : (d.vendor_id == 0x054c && d.product_id == 0x0ce6) = true)
    (hopen : d.open_ok = false) :
    gamepadSearchLoop (pre ++ d :: post) acc =
      (.error .OpenFailed, acc ++ pre.map errorEntry, [d]) := by
  induction pre generalizing acc with
  | nil => simp [gamepadSearchLoop, hd, hopen]
  | cons e rest ih =>
    have he := hpre e (by simp)
    simp only [List.cons_append, gamepadSearchLoop, he, Bool.false_eq_true,
      if_false]
    rw [List.append_eq, ih _ (fun x hx => hpre x (by simp [hx]))]
    simp [errorEntry]

/-- When no enumerated device has Bluetooth transport, `get_hid_gamepad`
short-circuits with `NoBTDevice`. -/
theorem get_hid_gamepad_eq_empty (devices : List DeviceInfo)
    (h : devices.filter (fun d => d.bus_type == BusType.Bluetooth) = []) :
    get_hid_gamepad devices = (.error .NoBTDevice, [], []) := by
  simp [get_hid_gamepad, _get_bluetooth_hid_devices, h]

/-- When Bluetooth devices exist, `get_hid_gamepad` is the search loop on
the Bluetooth sublist with an empty `error_info`. -/
theorem get_hid_gamepad_eq_loop (devices : List DeviceInfo)
    (h : devices.filter (fun d => d.bus_type == BusType.Bluetooth) ≠ []) :
    get_hid_gamepad devices =
      gamepadSearchLoop
        (devices.filter (fun d => d.bus_type == BusType.Bluetooth)) [] := by
  simp [get_hid_gamepad, _get_bluetooth_hid_devices, List.isEmpty_iff, h]

/-- C6: `get_hid_gamepad` returns `NoBTDevice` exactly when no connected
device has Bluetooth transport; when Bluetooth devices exist but none
carries the supported `(0x054c, 0x0ce6)` pair, it returns
`NoSupportedDevice` and its `error_info` log holds every one of the
Bluetooth devices — no unsupported device aborts the iteration. -/
theorem claim6_locator_error_classification (devices : List DeviceInfo) :
    ((get_hid_gamepad devices).1 = .error .NoBTDevice ↔
      devices.filter (fun d => d.bus_type == BusType.Bluetooth) = []) ∧
    (devices.filter (fun d => d.bus_type == BusType.Bluetooth) ≠ [] →
      (∀ d ∈ devices.filter (fun d => d.bus_type == BusType.Bluetooth),
        (d.vendor_id == 0x054c && d.product_id == 0x0ce6) = false) →
      (get_hid_gamepad devices).1 = .error .NoSupportedDevice ∧
      (get_hid_gamepad devices).2.1 =
        (devices.filter (fun d => d.bus_type == BusType.Bluetooth)).map
          errorEntry) := by
  constructor
  · constructor
    · intro h
      by_contra hne
      rw [get_hid_gamepad_eq_loop devices hne] at h
      exact gamepadSearchLoop_ne_noBT _ _ h
    · intro h
      rw [get_hid_gamepad_eq_empty devices h]
  · intro hne hall
    rw [get_hid_gamepad_eq_loop devices hne,
      gamepadSearchLoop_unmatched _ _ hall]
    simp

/-- A registry with one USB device and one unsupported Bluetooth device. -/
def devsC6 : List DeviceInfo :=
  [⟨.Usb, 1, 1, none, true⟩, ⟨.Bluetooth, 5, 6, none, true⟩]

/-- Witness for C6: on `devsC6` the Bluetooth list is nonempty, nothing
matches, and the locator answers `NoSupportedDevice` having logged the
unsupported Bluetooth device. -/
theorem claim6_locator_error_classification_witness :
    (get_hid_gamepad devsC6).1 = .error .NoSupportedDevice ∧
    (get_hid_gamepad devsC6).2.1 =
      (devsC6.filter (fun d => d.bus_type == BusType.Bluetooth)).map
        errorEntry :=
  (claim6_locator_error_classification devsC6).2 (by decide) (by decide)

/-- C10: if the first Bluetooth device matching vendor `0x054c`, product
`0x0ce6` fails to open, `get_hid_gamepad` returns `OpenFailed` at once:
the only open attempt is on that device, and none of the devices after it
is examined (its `error_info` stops before them). -/
theorem claim10_open_failure_stops_iteration
    (devices pre post : List DeviceInfo) (d : DeviceInfo)
    (hsplit : devices.filter (fun d => d.bus_type == BusType.Bluetooth) =
      pre ++ d :: post)
    (hpre : ∀ e ∈ pre, (e.vendor_id == 0x054c && e.product_id == 0x0ce6) = false)
    (hd : (d.vendor_id == 0x054c && d.product_id == 0x0ce6) = true)
    (hopen : d.open_ok = false) :
    (get_hid_gamepad devices).1 = .error .OpenFailed ∧
    (get_hid_gamepad devices).2.2 = [d] ∧
    (get_hid_gamepad devices).2.1 = pre.map errorEntry := by
  have hne : devices.filter (fun d => d.bus_type == BusType.Bluetooth) ≠ [] := by
    rw [hsplit]; simp
  rw [get_hid_gamepad_eq_loop devices hne, hsplit,
    gamepadSearchLoop_first_match_open_failure pre post d [] hpre hd hopen]
  simp

/-- A registry whose first Bluetooth device is a DualSense that refuses to
open, followed by another Bluetooth device. -/
def devsC10 : List DeviceInfo :=
  [⟨.Bluetooth, 0x054c, 0x0ce6, none, false⟩, ⟨.Bluetooth, 9, 9, none, true⟩]

/-- Witness for C10 on `devsC10`: `OpenFailed`, one open attempt, nothing
logged (the trailing device was never reached). -/
theorem claim10_open_failure_stops_iteration_witness :
    (get_hid_gamepad devsC10).1 = .error .OpenFailed ∧
    (get_hid_gamepad devsC10).2.2 = [⟨.Bluetooth, 0x054c, 0x0ce6, none, false⟩] ∧
    (get_hid_gamepad devsC10).2.1 = List.map errorEntry [] :=
  claim10_open_failure_stops_iteration devsC10 []
    [⟨.Bluetooth, 9, 9, none, true⟩] ⟨.Bluetooth, 0x054c, 0x0ce6, none, false⟩
    (by decide) (by decide) (by decide) (by decide)

/-! ## Pipeline runtime (src/usb_gamepad.rs)

### Gadget I/O of both writer strategies (lines 96-104 and 156-164)

Both strategies run the identical block: open `/dev/hidg0` write-only,
on open failure call `print_error_and_exit!("Could not open file hidg0",
err, 1)`, then `write_all`, logging a write failure with `println!` and
continuing.  The environment decides whether open and write succeed. -/

inductive GadgetWriteOutcome
  | exited (code : Nat)
  | wrote
  | write_failed_logged
deriving DecidableEq, Repr

/-- Modelled from the spec: the macro `print_error_and_exit!` is declared
in a module that is not among the sources at hand.  By its name, its
exit-code argument at the call sites, and spec §6 ("Exit codes: … 1
configuration/IO error"), it prints the message and terminates the process
with the given code. -/
def print_error_and_exit (code : Nat) : GadgetWriteOutcome :=
  .exited code

/-- The open-then-write block shared by `write_to_gadget_continously`
(lines 96-104) and `write_to_gadget_intervalic` (lines 156-164). -/
def gadget_write_step (open_ok write_ok : Bool) : GadgetWriteOutcome :=
  if open_ok then
    if write_ok then .wrote
    else .write_failed_logged
  else print_error_and_exit 1

/-- C3 counterexample: an open failure on `/dev/hidg0` (with a write that
would succeed) terminates the process with exit code 1 — it is not logged
and continued, refuting "no gadget I/O failure terminates the process". -/
theorem claim3_open_failure_exits_counterexample :
    gadget_write_step false true = .exited 1 ∧
    gadget_write_step false true ≠ .write_failed_logged ∧
    gadget_write_step false true ≠ .wrote := by
  decide

/-- C3 amended: in both writer strategies a WRITE failure on `/dev/hidg0`
is logged and the loop continues, but an OPEN failure terminates the
process with exit code 1. -/
theorem claim3_gadget_io_amended :
    gadget_write_step true false = .write_failed_logged ∧
    gadget_write_step true true = .wrote ∧
    (∀ write_ok, gadget_write_step false write_ok = .exited 1) := by
  refine ⟨rfl, rfl, fun write_ok => rfl⟩

/-! ### Continuous writer (`write_to_gadget_continously`, lines 75-106)

One unblocking episode of the `for gamepad in receiver.iter()` loop: the
argument is the channel contents at the moment the writer unblocks, oldest
first, with no further arrivals; the result is the sequence of gamepad
values it passes to `universal_gamepad_to_usb_output` and writes.  After
`receiver.iter()` yields the head, `receiver.len()` is the length of the
rest; `receiver.drain()` empties the queue (its enumerate loop binds no
element), after which the episode's writes end. -/

def write_to_gadget_continously {α : Type} : List α → List α
  | [] => []
  | gamepad :: rest =>
    if rest.length > 5 then [gamepad]
    else if rest.length > 1 then write_to_gadget_continously rest
    else gamepad :: write_to_gadget_continously rest

/-- C2: with 20 reports `0,…,19` queued while the writer was stalled
(backlog 19 > 5 after receiving the first), the writer does write exactly
one report — but it is the FIRST (oldest) one, `0`, not the 20th (newest),
`19`: `receiver.drain()` discards the backlog without rebinding `gamepad`,
contradicting the claim and the function's own doc comment ("evaluating
only the latest message in the channel"). -/
theorem claim2_coalescing_writes_oldest_code_bug :
    write_to_gadget_continously (List.range 20) = [0] ∧
    (List.range 20).getLast? = some 19 ∧
    write_to_gadget_continously (List.range 20) ≠ [19] := by
  decide

/-! ### Interval writer (`write_to_gadget_intervalic`, lines 116-174)

The write-fire decision of one loop iteration (lines 142-153), given the
elapsed nanoseconds since start, the interval length, and the cycle count
of the last write.  The `f32` quotient `diff_from_interval_ns as f32 /
interval_ns as f32` is modelled over `ℚ`. -/

def interval_write_fires (elapsed_ns interval_ns interval_counts_before : Nat)
    (max_deviation : ℚ) : Bool :=
  let interval_counts_now := elapsed_ns / interval_ns
  let diff_from_interval_ns := elapsed_ns % interval_ns
  let is_next_interval : Bool :=
    decide (interval_counts_now > interval_counts_before)
  let is_close_enough : Bool :=
    decide ((diff_from_interval_ns : ℚ) / (interval_ns : ℚ) ≤ max_deviation)
  is_next_interval && is_close_enough

/-- C4 counterexample: with `max_deviation = 1`, an iteration 1 ns after
start (period 4 ms, no write yet) emits NO write — the emission is still
gated on `interval_counts_now > interval_counts_before`, so `1` does not
make the writer "emit a write on every loop iteration". -/
theorem claim4_max_deviation_one_counterexample :
    interval_write_fires 1 4000000 0 1 = false := by
  decide

/-- C4 amended: with `max_deviation = 1` the deviation check is always
satisfied (the phase quotient is `< 1`), so the write fires exactly when
the cycle index has advanced past the last written cycle — at most once
per interval period, not on every loop iteration. -/
theorem claim4_max_deviation_one_disables_phase_check_only
    (elapsed_ns interval_ns interval_counts_before : Nat)
    (h : 0 < interval_ns) :
    interval_write_fires elapsed_ns interval_ns interval_counts_before 1 =
      true ↔ interval_counts_before < elapsed_ns / interval_ns := by
  have hmod : elapsed_ns % interval_ns < interval_ns := Nat.mod_lt _ h
  have hle : ((elapsed_ns % interval_ns : ℕ) : ℚ) / (interval_ns : ℚ) ≤ 1 := by
    rw [div_le_one (by exact_mod_cast h)]
    exact_mod_cast hmod.le
  simp only [interval_write_fires, gt_iff_lt, Bool.and_eq_true,
    decide_eq_true_eq]
  exact ⟨fun hp => hp.1, fun hp => ⟨hp, hle⟩⟩

/-- Witness for C4's amended statement at elapsed 5 ns, interval 4 ns,
last written cycle 0: the cycle index advanced, so the write fires. -/
theorem claim4_max_deviation_one_witness :
    0 < 4 ∧ (interval_write_fires 5 4 0 1 = true ↔ 0 < 5 / 4) :=
  ⟨by decide, claim4_max_deviation_one_disables_phase_check_only 5 4 0 (by decide)⟩

/-! ## Output gamepad selector (`Gamepad::from_cmdline_args`, src/usb_gamepad.rs lines 15-66)

The `Gamepad` descriptor keeps the fields the selector reads; the
function-pointer fields and the `UsbGadgetDescriptor` are not needed by
any claim and are omitted. -/

structure Gamepad where
  min_bt_report_size : Nat
  is_supported : Bool
  display_name : String
  associated_args : List String
deriving DecidableEq, Repr

/-- Rust `str::contains`: substring containment, as infix of the
character lists. -/
def containsSubstr (s pat : String) : Bool :=
  decide (pat.toList <:+: s.toList)

/-- Modelled from the spec: the descriptor constants `DUALSENSE` and
`DUALSHOCK` are defined in `usb_gamepad_ps5.rs` / `usb_gamepad_ps4.rs`,
which are not among the sources at hand.  Aliases follow spec §6
(`ps5`/`dualsense`, `ps4`/`dualshock`); spec §4.E flags one of the two
table entries `is_supported=false` (decoder implemented, encoder not) —
the DualShock entry; spec §8 S1 gives the PS5 minimum input length 12. -/
def DUALSENSE : Gamepad where
  min_bt_report_size := 12
  is_supported := true
  display_name := "PS5 DualSense"
  associated_args := ["ps5", "dualsense"]

/-- Modelled from the spec: the DualShock table entry, see `DUALSENSE`. -/
def DUALSHOCK : Gamepad where
  min_bt_report_size := 12
  is_supported := false
  display_name := "PS4 DualShock"
  associated_args := ["ps4", "dualshock"]

def OUTPUT_GAMEPADS : List Gamepad := [DUALSENSE, DUALSHOCK]

/-- The alias scan of `from_cmdline_args`: for each table entry, if the
given argument contains one of its aliases, a supported entry is returned;
an unsupported one prints a diagnostic and `break`s to the next entry.
Falling off the table prints the supported list and exits 1
(`_display_supported_gamepads`), modelled as `.error 1`. -/
def gamepadArgLoop (given_arg : String) : List Gamepad → Except Nat Gamepad
  | [] => .error 1
  | gamepad :: rest =>
    if gamepad.associated_args.any (fun a => containsSubstr given_arg a) then
      if gamepad.is_supported then .ok gamepad
      else gamepadArgLoop given_arg rest
    else gamepadArgLoop given_arg rest

/-- `from_cmdline_args`: `args` is the full argv (program name first).
Any exit of the Rust function is `.error` with the exit code. -/
def from_cmdline_args (args : List String) : Except Nat Gamepad :=
  if args.length ≠ 2 then .error 1
  else
    match args[1]? with
    | none => .error 1
    | some given_arg => gamepadArgLoop given_arg OUTPUT_GAMEPADS

/-- The alias scan only returns supported entries that the argument
matched. -/
theorem gamepadArgLoop_ok (given : String) (l : List Gamepad) (g : Gamepad)
    (h : gamepadArgLoop given l = .ok g) :
    g.is_supported = true ∧
    g.associated_args.any (fun a => containsSubstr given a) = true := by
  induction l with
  | nil => simp [gamepadArgLoop] at h
  | cons p rest ih =>
    unfold gamepadArgLoop at h
    by_cases h1 : p.associated_args.any (fun a => containsSubstr given a) = true
    · rw [if_pos h1] at h
      by_cases h2 : p.is_supported = true
      · rw [if_pos h2] at h
        cases h
        exact ⟨h2, h1⟩
      · rw [if_neg h2] at h
        exact ih h
    · rw [if_neg h1] at h
      exact ih h

/-- The alias scan fails only with exit code 1. -/
theorem gamepadArgLoop_error (given : String) (l : List Gamepad) (c : Nat)
    (h : gamepadArgLoop given l = .error c) : c = 1 := by
  induction l with
  | nil =>
    unfold gamepadArgLoop at h
    injection h with h
    exact h.symm
  | cons p rest ih =>
    unfold gamepadArgLoop at h
    by_cases h1 : p.associated_args.any (fun a => containsSubstr given a) = true
    · rw [if_pos h1] at h
      by_cases h2 : p.is_supported = true
      · rw [if_pos h2] at h
        cases h
      · rw [if_neg h2] at h
        exact ih h
    · rw [if_neg h1] at h
      exact ih h

/-- C7: `from_cmdline_args` returns a descriptor only if the positional
argument contains one of its aliases as a substring and the descriptor is
supported; every other outcome is a process exit with the non-zero code 1. -/
theorem claim7_selector_fail_closed (args : List String) :
    (∀ g, from_cmdline_args args = .ok g →
      g.is_supported = true ∧
      ∃ given, args[1]? = some given ∧
        g.associated_args.any (fun a => containsSubstr given a) = true) ∧
    (∀ c, from_cmdline_args args = .error c → c = 1) := by
  constructor
  · intro g hg
    unfold from_cmdline_args at hg
    by_cases hlen : args.length ≠ 2
    · rw [if_pos hlen] at hg
      cases hg
    · rw [if_neg hlen] at hg
      cases harg : args[1]? with
      | none => rw [harg] at hg; cases hg
      | some given =>
        rw [harg] at hg
        obtain ⟨h1, h2⟩ := gamepadArgLoop_ok given OUTPUT_GAMEPADS g hg
        exact ⟨h1, given, rfl, h2⟩
  · intro c hc
    unfold from_cmdline_args at hc
    by_cases hlen : args.length ≠ 2
    · rw [if_pos hlen] at hc
      injection hc with hc
      exact hc.symm
    · rw [if_neg hlen] at hc
      cases harg : args[1]? with
      | none =>
        rw [harg] at hc
        injection hc with hc
        exact hc.symm
      | some given =>
        rw [harg] at hc
        exact gamepadArgLoop_error given OUTPUT_GAMEPADS c hc

/-- Witness for C7 at argv `["gamepad-bridge", "ps5"]`: the selector
returns the DualSense descriptor, which is supported and whose alias
`"ps5"` the argument contains. -/
theorem claim7_selector_fail_closed_witness :
    DUALSENSE.is_supported = true ∧
    ∃ given, (["gamepad-bridge", "ps5"] : List String)[1]? = some given ∧
      DUALSENSE.associated_args.any (fun a => containsSubstr given a) = true :=
  (claim7_selector_fail_closed ["gamepad-bridge", "ps5"]).1 DUALSENSE rfl
